import Mathlib

/-!
Shallow embedding of the active-space reduction core of the repository:
the `ActiveSpaceTransformer`, the `CompositeProperty` generator protocol,
`IntegralProperty.second_q_ops`, `ElectronicDriverResult.second_q_ops` and
the `DirectMapper` template table, together with the theorems settling the
specification claims about them.

Numeric conventions: Python integers are modelled as `Int` with Python's
floor division and modulus (`pyDiv` / `pyMod`); floating-point occupation
numbers and matrix entries are idealized as exact rationals, so the
tolerance-based `np.allclose` comparison becomes exact equality of the
matrices.
-/

/-- Python floor division `a // b`. -/
def pyDiv (a b : Int) : Int := Int.fdiv a b

/-- Python modulus `a % b` (sign follows the divisor). -/
def pyMod (a b : Int) : Int := Int.fmod a b

/-- Reading entry `o` of a numpy vector. This models in-range (non-negative)
numpy indexing; out-of-range access, which raises in Python, is excluded by
the well-formedness hypotheses of the theorems that use it. -/
def pyGet (xs : List ℚ) (o : Int) : ℚ := xs.getD o.toNat 0

/-- Lookup in an insertion-ordered Python dict modelled as an association
list with unique keys. -/
def keyGet {κ α : Type} [DecidableEq κ] (l : List (κ × α)) (k : κ) : Option α :=
  match l with
  | [] => none
  | (k2, v) :: rest => if k2 = k then some v else keyGet rest k

/-- Python dict insert-or-replace: a present key keeps its position and gets
the new value, an absent key is appended (insertion order). -/
def keySet {κ α : Type} [DecidableEq κ] (l : List (κ × α)) (k : κ) (v : α) :
    List (κ × α) :=
  if (keyGet l k).isSome then
    l.map (fun e => if e.1 = k then (k, v) else e)
  else
    l ++ [(k, v)]

/-- The Python `range(a, b)` sequence of integers. -/
def intRange (a b : Int) : List Int := (List.range (b - a).toNat).map (fun k => a + Int.ofNat k)

/-- Python `max` over a list of integers; `none` models the `ValueError`
raised on an empty sequence. -/
def listMaxInt (l : List Int) : Option Int :=
  l.foldl (fun acc x => match acc with | none => some x | some m => some (max m x)) none

/-- The exceptions the embedded code can raise. `qiskitWrapped` models
`raise QiskitNatureError(msg) from cause`. -/
inductive PyErr : Type
  | qiskitError (msg : String)
  | qiskitWrapped (msg : String) (cause : PyErr)
  | valueError (msg : String)
  | runtimeError (msg : String)
  | typeError (msg : String)
  | attributeError (attr : String)
deriving DecidableEq

/-- Whether an exception is a re-raised error carrying a wrapping context. -/
def PyErr.isWrapped : PyErr → Bool
  | .qiskitWrapped _ _ => true
  | _ => false

/-- Dense rational matrix as a row list. -/
abbrev Mat := List (List ℚ)

/-- Dot product of two rows. -/
def dotProd (xs ys : List ℚ) : ℚ := (List.zipWith (· * ·) xs ys).sum

/-- Matrix transpose. -/
def matTranspose (m : Mat) : Mat :=
  (List.range (m.headD []).length).map (fun j => m.map (fun row => row.getD j 0))

/-- Matrix product `np.dot`. -/
def matMul (a b : Mat) : Mat :=
  a.map (fun row => (matTranspose b).map (fun col => dotProd row col))

/-- Column selection `m[:, idxs]` by a list of column indices. -/
def selectCols (m : Mat) (idxs : List Int) : Mat :=
  m.map (fun row => idxs.map (fun i => row.getD i.toNat 0))

/-- Fancy indexing `xs[idxs]` of a vector. -/
def selectEntries (xs : List ℚ) (idxs : List Int) : List ℚ :=
  idxs.map (fun i => pyGet xs i)

/-- Broadcast product `m * s` of an `(nao, k)` matrix with a `(k,)` vector:
every row is scaled entrywise by `s`, i.e. `m · diag(s)`. -/
def scaleCols (m : Mat) (s : List ℚ) : Mat :=
  m.map (fun row => List.zipWith (· * ·) row s)

/-- Modelled from the spec: the `ParticleNumber` property class (its file is
not under `src/`). Per the spec's data model it holds the total alpha/beta
electron counts, the per-orbital occupation vectors and the total
spin-orbital count; the transformer's constructor call binds its positional
arguments as `(num_spin_orbitals, (num_alpha, num_beta), occupation_alpha,
occupation_beta)`, matching the `_num_spin_orbitals`, `_num_alpha`,
`_num_beta`, `_occupation_alpha` and `_occupation_beta` fields the
transformer reads. -/
structure ParticleNumber where
  numSpinOrbitals : Int
  numAlpha : Int
  numBeta : Int
  occupationAlpha : List ℚ
  occupationBeta : List ℚ
deriving DecidableEq

/-- The alpha/beta coefficient matrices of an `ElectronicBasisTransform`. -/
structure ElectronicBasisTransformData where
  coeffAlpha : Mat
  coeffBeta : Mat
deriving DecidableEq

/-- Payload of a property stored in the reduced output composite: either an
opaque reduced property (the outcome of an external `reduce_system_size`
call) or a `ParticleNumber` instance. -/
inductive OutPayload : Type
  | generic (tag : Nat)
  | particleNumber (pn : ParticleNumber)
deriving DecidableEq

/-- A property value held by the output composite, keyed by its `name`
attribute when inserted through `add_property`. -/
structure OutProp where
  name : String
  payload : OutPayload
deriving DecidableEq

/-- The slice of an input `ElectronicDriverResult` that `transform` reads:
the `properties["ParticleNumber"]` value, the electronic basis transform,
and, for the reduction loop over `properties.values()`, the sequence of
`reduce_system_size` outcomes in dict order (`none` models a property whose
reduction raises `NotImplementedError`; the reductions themselves are
external collaborators, so their outcomes are carried as data). -/
structure MoleculeData where
  particleNumber : ParticleNumber
  reduceOutcomes : List (Option OutProp)
  basisTransform : ElectronicBasisTransformData
deriving DecidableEq

/-- The `num_electrons` configuration value: a Python int, a pair whose
entries may fail to be ints (`none` entry), or a value of some other type
entirely. -/
inductive NumElectrons : Type
  | int (n : Int)
  | tup (a b : Option Int)
  | invalid
deriving DecidableEq

/-- The constructor arguments of `ActiveSpaceTransformer`;
`numMolecularOrbitals = none` models a non-int (e.g. `None`) value. -/
structure ASTConfig where
  numElectrons : NumElectrons
  numMolecularOrbitals : Option Int
  activeOrbitals : Option (List Int)
deriving DecidableEq

/-- The `num_electrons` branch of `_check_configuration` (the odd check runs
before the negativity check, as in the source). -/
def checkNumElectronsCfg (ne : NumElectrons) : Except PyErr Unit :=
  match ne with
  | .int n =>
    if pyMod n 2 ≠ 0 then
      .error (.qiskitError ("The number of active electrons must be even!"))
    else if n < 0 then
      .error (.qiskitError ("The number of active electrons cannot be negative."))
    else .ok ()
  | .tup a b =>
    if (match a with | some x => decide (0 ≤ x) | none => false)
        && (match b with | some y => decide (0 ≤ y) | none => false) then
      .ok ()
    else
      .error (.qiskitError ("Neither the number of alpha, nor the number of beta electrons can be negative."))
  | .invalid =>
    .error (.qiskitError ("The number of active electrons must be an int, or a tuple thereof."))

/-- The `num_molecular_orbitals` branch of `_check_configuration`. -/
def checkNumOrbitalsCfg (mo : Option Int) : Except PyErr Unit :=
  match mo with
  | some m =>
    if m < 0 then
      .error (.qiskitError ("The number of active orbitals cannot be negative."))
    else .ok ()
  | none =>
    .error (.qiskitError ("The number of active orbitals must be an int."))

/-- The pure configuration validation `_check_configuration`. -/
def checkConfiguration (cfg : ASTConfig) : Except PyErr Unit := do
  checkNumElectronsCfg cfg.numElectrons
  checkNumOrbitalsCfg cfg.numMolecularOrbitals

/-- Lines 240-243 of the transformer: the requested active (alpha, beta)
electron counts. The `.invalid` case is unreachable inside `transform`
because `_check_configuration` has already rejected it. -/
def activeParticles (ne : NumElectrons) : Int × Int :=
  match ne with
  | .tup a b => (a.getD 0, b.getD 0)
  | .int n => (pyDiv n 2, pyDiv n 2)
  | .invalid => (0, 0)

/-- The elementwise total occupation vector `self._mo_occ_total`. -/
def moOccTotal (md : MoleculeData) : List ℚ :=
  List.zipWith (· + ·) md.particleNumber.occupationAlpha md.particleNumber.occupationBeta

/-- The `_validate_num_electrons` check. -/
def validateNumElectrons (nelecInactive : Int) : Except PyErr Unit :=
  if nelecInactive < 0 then
    .error (.qiskitError ("More electrons requested than available."))
  else if pyMod nelecInactive 2 ≠ 0 then
    .error (.qiskitError ("The number of inactive electrons must be even."))
  else .ok ()

/-- The `_validate_num_orbitals` check. In the explicit-indices branch the
source compares `sum(self._mo_occ_total[self._active_orbitals])` (a numpy
float) against `self._num_electrons` itself: for an int that is a numeric
comparison; for a tuple numpy broadcasts the comparison elementwise and the
`if` then raises `ValueError` (ambiguous truth value of a 2-element array);
for any other type the comparison is `True` and the mismatch error is
raised. Python's `max` raises `ValueError` on an empty index list. -/
def validateNumOrbitals (cfg : ASTConfig) (md : MoleculeData) (nelecInactive : Int) :
    Except PyErr Unit :=
  let norbsTotal := pyDiv md.particleNumber.numSpinOrbitals 2
  match cfg.activeOrbitals with
  | none =>
    if pyDiv nelecInactive 2 + cfg.numMolecularOrbitals.getD 0 > norbsTotal then
      .error (.qiskitError ("More orbitals requested than available."))
    else .ok ()
  | some active =>
    if cfg.numMolecularOrbitals.getD 0 ≠ (active.length : Int) then
      .error (.qiskitError ("The number of selected active orbital indices does not match the specified number of active orbitals."))
    else
      match listMaxInt active with
      | none => .error (.valueError ("max() arg is an empty sequence"))
      | some mx =>
        if mx ≥ norbsTotal then
          .error (.qiskitError ("More orbitals requested than available."))
        else
          match cfg.numElectrons with
          | .int n =>
            if (selectEntries (moOccTotal md) active).sum ≠ (n : ℚ) then
              .error (.qiskitError ("The number of electrons in the selected active orbitals does not match the specified number of active electrons."))
            else .ok ()
          | .tup _ _ =>
            .error (.valueError ("The truth value of an array with more than one element is ambiguous."))
          | .invalid =>
            .error (.qiskitError ("The number of electrons in the selected active orbitals does not match the specified number of active electrons."))

/-- The active/inactive orbital index lists together with the requested
particle counts recorded in `self._num_particles`. -/
structure ActiveSpaceSelection where
  activeIdxs : List Int
  inactiveIdxs : List Int
  numParticlesAlpha : Int
  numParticlesBeta : Int
deriving DecidableEq

/-- The `_determine_active_space` step. -/
def determineActiveSpace (cfg : ASTConfig) (md : MoleculeData) :
    Except PyErr ActiveSpaceSelection :=
  let ap := activeParticles cfg.numElectrons
  let nelecTotal := md.particleNumber.numAlpha + md.particleNumber.numBeta
  let nelecInactive := nelecTotal - ap.1 - ap.2
  match validateNumElectrons nelecInactive with
  | .error e => .error e
  | .ok _ =>
    match validateNumOrbitals cfg md nelecInactive with
    | .error e => .error e
    | .ok _ =>
      match cfg.activeOrbitals with
      | none =>
        let norbsInactive := pyDiv nelecInactive 2
        .ok { activeIdxs := intRange norbsInactive (norbsInactive + cfg.numMolecularOrbitals.getD 0)
              inactiveIdxs := intRange 0 norbsInactive
              numParticlesAlpha := ap.1
              numParticlesBeta := ap.2 }
      | some active =>
        .ok { activeIdxs := active
              inactiveIdxs := (intRange 0 (pyDiv nelecTotal 2)).filter
                (fun o => (!active.contains o) && decide (0 < pyGet (moOccTotal md) o))
              numParticlesAlpha := ap.1
              numParticlesBeta := ap.2 }

/-- The inactive one-body density of one spin channel (transform lines
155-160 / 165-170): `C[:, idxs] * occ[idxs] · (C[:, idxs])ᵀ`. -/
def inactiveDensity (coeff : Mat) (occ : List ℚ) (idxs : List Int) : Mat :=
  let coeffInactive := selectCols coeff idxs
  matMul (scaleCols coeffInactive (selectEntries occ idxs)) (matTranspose coeffInactive)

/-- The intermediate values `transform` computes before assembling the
reduced composite. -/
structure TransformInternals where
  betaSpin : Bool
  sel : ActiveSpaceSelection
  densityInactiveAlpha : Mat
  densityInactiveBeta : Option Mat
  newCoeffAlpha : Mat
  newCoeffBeta : Option Mat
deriving DecidableEq

/-- Transform lines 133-179: configuration check (its failure re-raised with
the stable wrapping context), the `beta_spin = np.allclose(coeff_alpha,
coeff_beta)` flag (exact matrix equality in this rational idealization),
active-space determination, the inactive densities (the beta one only under
`beta_spin`) and the new active-orbital basis transform. -/
def transformInternals (cfg : ASTConfig) (md : MoleculeData) :
    Except PyErr TransformInternals :=
  match checkConfiguration cfg with
  | .error e => .error (.qiskitWrapped ("Incorrect Active-Space configuration.") e)
  | .ok _ =>
    let coeffA := md.basisTransform.coeffAlpha
    let coeffB := md.basisTransform.coeffBeta
    let betaSpin := decide (coeffA = coeffB)
    match determineActiveSpace cfg md with
    | .error e => .error e
    | .ok sel =>
      .ok { betaSpin := betaSpin
            sel := sel
            densityInactiveAlpha :=
              inactiveDensity coeffA md.particleNumber.occupationAlpha sel.inactiveIdxs
            densityInactiveBeta :=
              if betaSpin then
                some (inactiveDensity coeffB md.particleNumber.occupationBeta sel.inactiveIdxs)
              else none
            newCoeffAlpha := selectCols coeffA sel.activeIdxs
            newCoeffBeta :=
              if betaSpin then some (selectCols coeffB sel.activeIdxs) else none }

/-- The reduced driver result produced by `transform`. -/
structure TransformResult where
  properties : List (String × OutProp)
deriving DecidableEq

/-- Transform lines 181-199: the reduction loop (properties whose reduction
raises `NotImplementedError` are skipped, the others inserted under their
own name), followed by the unconditional overwrite of `"ParticleNumber"`
with a freshly constructed instance whose first constructor argument is
`self._num_molecular_orbitals // 2`. -/
def buildReduced (cfg : ASTConfig) (md : MoleculeData) (ti : TransformInternals) :
    TransformResult :=
  let base := md.reduceOutcomes.foldl
    (fun acc o => match o with
      | none => acc
      | some rp => keySet acc rp.name rp) ([] : List (String × OutProp))
  let freshPN : ParticleNumber :=
    { numSpinOrbitals := pyDiv (cfg.numMolecularOrbitals.getD 0) 2
      numAlpha := ti.sel.numParticlesAlpha
      numBeta := ti.sel.numParticlesBeta
      occupationAlpha := selectEntries md.particleNumber.occupationAlpha ti.sel.activeIdxs
      occupationBeta := selectEntries md.particleNumber.occupationBeta ti.sel.activeIdxs }
  { properties :=
      keySet base ("ParticleNumber")
        { name := ("ParticleNumber"), payload := .particleNumber freshPN } }

/-- The full `ActiveSpaceTransformer.transform`. -/
def transform (cfg : ASTConfig) (md : MoleculeData) : Except PyErr TransformResult :=
  (transformInternals cfg md).map (buildReduced cfg md)

/-- A Pauli string in the symplectic `Pauli((z, x))` encoding used by the
direct mapper: two boolean vectors of equal length. -/
structure PauliData where
  z : List Bool
  x : List Bool
deriving DecidableEq

/-- The raising/lowering template pair the direct mapper builds for mode `i`
of an `nmodes`-mode operator (source lines 39-43): the boolean vectors are
written exactly as the source concatenates them. -/
def directPauliPair (nmodes i : Nat) : PauliData × PauliData :=
  ({ z := List.replicate i false ++ [false] ++ List.replicate (nmodes - i - 1) false
     x := List.replicate i false ++ [true] ++ List.replicate (nmodes - i - 1) false },
   { z := List.replicate i false ++ [true] ++ List.replicate (nmodes - i - 1) false
     x := List.replicate i false ++ [true] ++ List.replicate (nmodes - i - 1) false })

/-- The per-mode template table `pauli_table` of `DirectMapper.map`, where
`nmodes = sum(second_q_op.num_modals)`. -/
def directPauliTable (nmodes : Nat) : List (PauliData × PauliData) :=
  (List.range nmodes).map (directPauliPair nmodes)

/-- A property held by a `CompositeProperty`: its `name` attribute plus an
opaque tag distinguishing distinct instances. -/
structure PropertyData where
  name : String
  tag : Nat
deriving DecidableEq

/-- The composite's backing dict, as an insertion-ordered association
list with unique keys. -/
abbrev CompositeDict := List (String × PropertyData)

/-- The composite's `add_property`: insert-or-replace keyed by the
property's own `name` attribute. -/
def addProperty (c : CompositeDict) (p : PropertyData) : CompositeDict :=
  keySet c p.name p

/-- The generator-iterator `CompositeProperty._generator`: the `for` loop
walks the live backing dict by position, yields each value, and when the
caller `send`s a non-`None` replacement it is written back through
`add_property` before the loop advances. `resps` is the sequence of values
the caller passes to `next`/`send` (`none` for a plain `next`); an exhausted
`resps` list models the caller abandoning the generator. CPython raises
`RuntimeError` at the next loop step if a write-back changed the dict's
size (a replacement under a fresh name). -/
def generatorRun (c : CompositeDict) (i : Nat) (resps : List (Option PropertyData)) :
    Except PyErr CompositeDict :=
  match resps with
  | [] => .ok c
  | r :: rest =>
    if i < c.length then
      match r with
      | none => generatorRun c (i + 1) rest
      | some np =>
        let c2 := addProperty c np
        if c2.length = c.length then generatorRun c2 (i + 1) rest
        else .error (.runtimeError ("dictionary changed size during iteration"))
    else .ok c

/-- Modelled from the spec: a `FermionicOp` (external collaborator, the
operators module is not under `src/`) as a list of labelled terms; operator
addition concatenates the term lists. -/
abbrev FOp := List (String × ℚ)

/-- The builtin `sum` of a list of operators under operator addition. -/
def sumOps (l : List FOp) : FOp := l.foldr (· ++ ·) []

/-- Modelled from the spec: `FermionicOp.reduce`, the algebraic
simplification that coalesces equal labels by summing their coefficients. -/
def reduceOp (op : FOp) : FOp :=
  op.foldl
    (fun acc t =>
      if (keyGet acc t.1).isSome then
        acc.map (fun e => if e.1 = t.1 then (e.1, e.2 + t.2) else e)
      else acc ++ [t]) []

/-- The electronic bases an `IntegralProperty` can key its integrals by. -/
inductive ElectronicBasis : Type
  | AO
  | MO
  | SO
deriving DecidableEq

/-- Modelled from the spec: one `ElectronicIntegrals` container. Its
body-specific `to_second_q_op` conversion is an external collaborator, so
the operator it yields is carried as stored data. -/
structure ElectronicIntegralsData where
  op : FOp
deriving DecidableEq

/-- The `to_second_q_op` conversion of a stored integral container. -/
def toSecondQOp (e : ElectronicIntegralsData) : FOp := e.op

/-- The state of an `IntegralProperty`: its name, the basis-keyed integral
containers and the named scalar shifts. -/
structure IntegralPropertyData where
  name : String
  electronicIntegrals : List (ElectronicBasis × List ElectronicIntegralsData)
  shift : List (String × ℚ)
deriving DecidableEq

/-- The body of `IntegralProperty.second_q_ops`: `ints` starts as `None`,
becomes the spin-orbital integrals if that basis is present, else the
molecular-orbital integrals if present; the returned list holds the reduced
sum of the per-body-order operators. Iterating over a still-`None` `ints`
raises `TypeError` in Python. -/
def integralPropertySecondQOps (p : IntegralPropertyData) : Except PyErr (List FOp) :=
  let ints :=
    if (keyGet p.electronicIntegrals ElectronicBasis.SO).isSome then
      keyGet p.electronicIntegrals ElectronicBasis.SO
    else if (keyGet p.electronicIntegrals ElectronicBasis.MO).isSome then
      keyGet p.electronicIntegrals ElectronicBasis.MO
    else none
  match ints with
  | some l => .ok [reduceOp (sumOps (l.map toSecondQOp))]
  | none => .error (.typeError ("argument of type NoneType is not iterable"))

/-- The instance attributes `ElectronicDriverResult.second_q_ops` interacts
with: the three assigned by `__init__` and the five it tries to read. -/
inductive EDRAttr : Type
  | nameAttr
  | propertiesAttr
  | electronicBasisTransformAttr
  | electronicEnergyMo
  | particleNumberAttr
  | angularMomentum
  | magnetization
  | totalDipoleMoment
deriving DecidableEq

/-- The instance state of an `ElectronicDriverResult`: which attributes have
been assigned, the `properties` dict and the basis transform. -/
structure EDRState where
  assignedAttrs : List EDRAttr
  storedProperties : List (String × PropertyData)
  basisTransform : Option ElectronicBasisTransformData

/-- The attributes `__init__` assigns (`name` via the superclass, the
`properties` dict and `electronic_basis_transform`). -/
def edrInitAttrs : List EDRAttr :=
  [EDRAttr.nameAttr, EDRAttr.propertiesAttr, EDRAttr.electronicBasisTransformAttr]

/-- The freshly constructed `ElectronicDriverResult()`. -/
def edrInit : EDRState :=
  { assignedAttrs := edrInitAttrs, storedProperties := [], basisTransform := none }

/-- The states an `ElectronicDriverResult` instance can reach through the
class's own constructor and methods: `__init__`, `add_property` (which only
mutates the `properties` dict) and the `electronic_basis_transform`
assignment performed by `from_driver_result` (an attribute `__init__`
already assigned). -/
inductive EDRReachable : EDRState → Prop
  | init : EDRReachable edrInit
  | addProp (s : EDRState) (p : PropertyData) (h : EDRReachable s) :
      EDRReachable { s with storedProperties := keySet s.storedProperties p.name p }
  | setBasisTransform (s : EDRState) (t : ElectronicBasisTransformData) (h : EDRReachable s) :
      EDRReachable { s with basisTransform := some t }

/-- The body of `ElectronicDriverResult.second_q_ops`: it reads the five
attributes in source order, raising `AttributeError` at the first one that
was never assigned. The value of the all-attributes-present branch is
immaterial: no state reachable through the class API assigns any of the
five (proved below), so the subsequent `second_q_ops` calls on them are
never executed and are not modelled. -/
def edrSecondQOps (s : EDRState) : Except PyErr (List FOp) :=
  if EDRAttr.electronicEnergyMo ∈ s.assignedAttrs then
    if EDRAttr.particleNumberAttr ∈ s.assignedAttrs then
      if EDRAttr.angularMomentum ∈ s.assignedAttrs then
        if EDRAttr.magnetization ∈ s.assignedAttrs then
          if EDRAttr.totalDipoleMoment ∈ s.assignedAttrs then
            .ok []
          else .error (.attributeError ("total_dipole_moment"))
        else .error (.attributeError ("magnetization"))
      else .error (.attributeError ("angular_momentum"))
    else .error (.attributeError ("particle_number"))
  else .error (.attributeError ("electronic_energy_mo"))

/-- Membership in a Python integer range. -/
theorem intRange_mem (a b o : Int) : o ∈ intRange a b ↔ a ≤ o ∧ o < b := by
  constructor
  · intro hm
    obtain ⟨k, hk, he⟩ := List.mem_map.mp hm
    have hk2 := List.mem_range.mp hk
    simp only [Int.ofNat_eq_coe] at he
    omega
  · intro hh
    refine List.mem_map.mpr ⟨(o - a).toNat, List.mem_range.mpr (by omega), ?_⟩
    simp only [Int.ofNat_eq_coe]
    omega

/-- A replicated block with one more copy inserted is a single replicate. -/
theorem replicate_block {α : Type} (n i : Nat) (h : i < n) (a : α) :
    List.replicate i a ++ [a] ++ List.replicate (n - i - 1) a = List.replicate n a := by
  have h1 : [a] ++ List.replicate (n - i - 1) a = List.replicate (n - i) a := by
    have h2 : n - i = (n - i - 1) + 1 := by omega
    rw [h2, List.replicate_succ]
    rfl
  rw [List.append_assoc, h1, ← List.replicate_add]
  congr 1
  omega

/-- The spec's X-type predicate on a template string, used to compare the
claim's words with the source-derived table: the `z` component vanishes
everywhere and the `x` component is set exactly on qubit `i`. -/
def isXTypeOn (nmodes i : Nat) (p : PauliData) : Prop :=
  p.z = List.replicate nmodes false ∧
  p.x = List.replicate i false ++ [true] ++ List.replicate (nmodes - i - 1) false

instance (nmodes i : Nat) (p : PauliData) : Decidable (isXTypeOn nmodes i p) := by
  unfold isXTypeOn
  infer_instance

/-- Claim C2 fails on the code at `nmodes = 1`, mode `0`: the lowering-type
template is not an X-type operator (its `z` component is set on qubit `0`),
so the raising/lowering pair is not an identical X-type pair. -/
theorem C2_counterexample :
    ¬ (isXTypeOn 1 0 ((directPauliTable 1).getD 0
          ({ z := [], x := [] }, { z := [], x := [] })).2
       ∧ ((directPauliTable 1).getD 0 ({ z := [], x := [] }, { z := [], x := [] })).1
          = ((directPauliTable 1).getD 0 ({ z := [], x := [] }, { z := [], x := [] })).2) := by
  decide

/-- C2 (amended): the direct-mapper template table has exactly `n` entries;
entry `i` has both Pauli strings exactly `n` qubits wide; the raising-type
template is an X-type operator on qubit `i` (identity elsewhere), while the
lowering-type template has both its `z` and `x` components set exactly on
qubit `i` (a Y-type operator up to phase), so the two templates differ. -/
theorem C2_direct_table_shape (n i : Nat) (h : i < n) :
    (directPauliTable n).length = n
    ∧ (directPauliTable n).getD i ({ z := [], x := [] }, { z := [], x := [] })
        = directPauliPair n i
    ∧ (directPauliPair n i).1.z.length = n
    ∧ (directPauliPair n i).1.x.length = n
    ∧ (directPauliPair n i).2.z.length = n
    ∧ (directPauliPair n i).2.x.length = n
    ∧ isXTypeOn n i (directPauliPair n i).1
    ∧ (directPauliPair n i).2.z
        = List.replicate i false ++ [true] ++ List.replicate (n - i - 1) false
    ∧ (directPauliPair n i).2.x
        = List.replicate i false ++ [true] ++ List.replicate (n - i - 1) false
    ∧ (directPauliPair n i).1 ≠ (directPauliPair n i).2 := by
  refine ⟨?_, ?_, ?_, ?_, ?_, ?_, ?_, rfl, rfl, ?_⟩
  · simp [directPauliTable]
  · have h1 : (directPauliTable n).getD i
        ({ z := [], x := [] }, { z := [], x := [] })
        = ((directPauliTable n).get? i).getD
          ({ z := [], x := [] }, { z := [], x := [] }) := rfl
    rw [h1]
    simp [directPauliTable, List.get?_eq_getElem?, List.getElem?_map,
      List.getElem?_range, h]
  · simp [directPauliPair]
    omega
  · simp [directPauliPair]
    omega
  · simp [directPauliPair]
    omega
  · simp [directPauliPair]
    omega
  · constructor
    · simpa [directPauliPair] using replicate_block n i h false
    · rfl
  · intro hEq
    have h2 : (directPauliPair n i).1.z = (directPauliPair n i).2.z := by rw [hEq]
    simp [directPauliPair] at h2

/-- Witness for `C2_direct_table_shape` at `n = 2`, `i = 1`. -/
theorem C2_direct_table_shape_witness :
    (directPauliTable 2).length = 2
    ∧ (directPauliTable 2).getD 1 ({ z := [], x := [] }, { z := [], x := [] })
        = directPauliPair 2 1
    ∧ (directPauliPair 2 1).1.z.length = 2
    ∧ (directPauliPair 2 1).1.x.length = 2
    ∧ (directPauliPair 2 1).2.z.length = 2
    ∧ (directPauliPair 2 1).2.x.length = 2
    ∧ isXTypeOn 2 1 (directPauliPair 2 1).1
    ∧ (directPauliPair 2 1).2.z
        = List.replicate 1 false ++ [true] ++ List.replicate (2 - 1 - 1) false
    ∧ (directPauliPair 2 1).2.x
        = List.replicate 1 false ++ [true] ++ List.replicate (2 - 1 - 1) false
    ∧ (directPauliPair 2 1).1 ≠ (directPauliPair 2 1).2 :=
  C2_direct_table_shape 2 1 (by decide)

/-- The identity matrix, used as the coefficient matrix of concrete systems. -/
def identityMat (n : Nat) : Mat :=
  (List.range n).map (fun i => (List.range n).map (fun j => if i = j then 1 else 0))

/-- Configuration for claim C1: a valid single-integer request of 2 active
electrons in 2 active orbitals. -/
def cfgC1 : ASTConfig :=
  { numElectrons := .int 2, numMolecularOrbitals := some 2, activeOrbitals := none }

/-- Input system for claim C1: a restricted 4-electron, 4-spatial-orbital
system. -/
def mdC1 : MoleculeData :=
  { particleNumber :=
      { numSpinOrbitals := 8, numAlpha := 2, numBeta := 2,
        occupationAlpha := [1, 1, 0, 0], occupationBeta := [1, 1, 0, 0] }
    reduceOutcomes := []
    basisTransform := { coeffAlpha := identityMat 4, coeffBeta := identityMat 4 } }

/-- Claim C1 is wrong on the code: on a valid configuration requesting
`m = 2` active orbitals, `transform` succeeds and freshly constructs the
output particle-number property with the requested `(1, 1)` electron split
and the active-restricted occupations, but its spin-orbital count is
`num_molecular_orbitals // 2 = 1`, so it reports `1 // 2 = 0` active
spatial orbitals instead of the requested `2` (the transformer itself reads
`_num_spin_orbitals // 2` as the spatial-orbital count). -/
theorem C1_transform_misreports_orbital_count :
    (transform cfgC1 mdC1).map (fun r => keyGet r.properties ("ParticleNumber"))
      = .ok (some { name := ("ParticleNumber")
                    payload := .particleNumber
                      { numSpinOrbitals := 1, numAlpha := 1, numBeta := 1,
                        occupationAlpha := [1, 0], occupationBeta := [1, 0] } })
    ∧ pyDiv 1 2 = 0
    ∧ (0 : Int) ≠ 2 := by
  refine ⟨?_, by decide, by decide⟩
  simp [transform, transformInternals, determineActiveSpace, validateNumElectrons,
    validateNumOrbitals, checkConfiguration, checkNumElectronsCfg, checkNumOrbitalsCfg,
    activeParticles, moOccTotal, pyDiv, pyMod, pyGet, intRange, selectEntries, selectCols,
    keyGet, keySet, inactiveDensity, scaleCols, matMul, matTranspose, dotProd, listMaxInt,
    cfgC1, mdC1, identityMat, buildReduced, Bind.bind, Except.bind, Except.map,
    List.range_succ]

/-- Configuration for claim C3: a valid single-integer request. -/
def cfgC3 : ASTConfig :=
  { numElectrons := .int 2, numMolecularOrbitals := some 1, activeOrbitals := none }

/-- Input system for claim C3: a spin-unrestricted system whose beta
coefficient matrix differs from the alpha one. -/
def mdC3 : MoleculeData :=
  { particleNumber :=
      { numSpinOrbitals := 4, numAlpha := 1, numBeta := 1,
        occupationAlpha := [1, 0], occupationBeta := [1, 0] }
    reduceOutcomes := []
    basisTransform := { coeffAlpha := [[1, 0], [0, 1]], coeffBeta := [[1, 0], [0, 2]] } }

/-- Claim C3 is wrong on the code: on a spin-unrestricted system (distinct
alpha/beta coefficient matrices) the transform succeeds but constructs no
beta inactive density at all, because the source guards the beta channel
with `beta_spin = np.allclose(coeff_alpha, coeff_beta)` — true exactly when
the matrices coincide — instead of its negation. -/
theorem C3_beta_density_skipped_when_unrestricted :
    mdC3.basisTransform.coeffAlpha ≠ mdC3.basisTransform.coeffBeta
    ∧ (transformInternals cfgC3 mdC3).map (fun t => t.densityInactiveBeta) = .ok none := by
  constructor
  · norm_num [mdC3]
  · simp [transformInternals, determineActiveSpace, validateNumElectrons,
      validateNumOrbitals, checkConfiguration, checkNumElectronsCfg, checkNumOrbitalsCfg,
      activeParticles, moOccTotal, pyDiv, pyMod, pyGet, intRange, selectEntries, selectCols,
      keyGet, keySet, inactiveDensity, scaleCols, matMul, matTranspose, dotProd, listMaxInt,
      cfgC3, mdC3, Bind.bind, Except.bind, Except.map]

/-- Configuration for claim C5: a tuple-valued electron count with an
explicit active-orbital list. -/
def cfgC5 : ASTConfig :=
  { numElectrons := .tup (some 1) (some 1), numMolecularOrbitals := some 1,
    activeOrbitals := some [0] }

/-- Input system for claim C5: 2 electrons in 2 spatial orbitals, the
selected active orbital holding exactly alpha + beta = 2 electrons. -/
def mdC5 : MoleculeData :=
  { particleNumber :=
      { numSpinOrbitals := 4, numAlpha := 1, numBeta := 1,
        occupationAlpha := [1, 0], occupationBeta := [1, 0] }
    reduceOutcomes := []
    basisTransform := { coeffAlpha := identityMat 2, coeffBeta := identityMat 2 } }

/-- Claim C5 is wrong on the code: with a tuple-valued `(1, 1)` electron
count and active orbital `[0]` whose summed occupation equals
`alpha + beta = 2`, the claim predicts success, but the source compares the
float sum against the tuple itself, so the numpy elementwise comparison
makes the truthiness test raise `ValueError` for every tuple-valued
configuration. -/
theorem C5_tuple_occupation_check_raises :
    (selectEntries (moOccTotal mdC5) [0]).sum = ((1 : ℚ) + 1)
    ∧ transform cfgC5 mdC5
        = .error (.valueError ("The truth value of an array with more than one element is ambiguous.")) := by
  constructor
  · norm_num [selectEntries, moOccTotal, pyGet, mdC5]
  · simp [transform, transformInternals, determineActiveSpace, validateNumElectrons,
      validateNumOrbitals, checkConfiguration, checkNumElectronsCfg, checkNumOrbitalsCfg,
      activeParticles, moOccTotal, pyDiv, pyMod, pyGet, intRange, selectEntries, selectCols,
      keyGet, keySet, inactiveDensity, scaleCols, matMul, matTranspose, dotProd, listMaxInt,
      cfgC5, mdC5, identityMat, buildReduced, Bind.bind, Except.bind, Except.map]

/-- The inactive index set as claim C4 states it (from the spec's words, for
comparison with the source computation): all orbital indices of the system
— the full spatial-orbital range — that are not in the active set and whose
total occupation is strictly positive. -/
def claimInactiveSet (md : MoleculeData) (active : List Int) : List Int :=
  (intRange 0 (pyDiv md.particleNumber.numSpinOrbitals 2)).filter
    (fun o => (!active.contains o) && decide (0 < pyGet (moOccTotal md) o))

/-- Configuration for claim C4: explicit active orbital `[0]` holding the
2 requested electrons. -/
def cfgC4 : ASTConfig :=
  { numElectrons := .int 2, numMolecularOrbitals := some 1, activeOrbitals := some [0] }

/-- Input system for claim C4: 4 electrons in 3 spatial orbitals with
occupations `(2, 0, 2)`; orbital 2 is occupied but lies at or above index
`total_electrons // 2 = 2`. -/
def mdC4 : MoleculeData :=
  { particleNumber :=
      { numSpinOrbitals := 6, numAlpha := 2, numBeta := 2,
        occupationAlpha := [1, 0, 1], occupationBeta := [1, 0, 1] }
    reduceOutcomes := []
    basisTransform := { coeffAlpha := identityMat 3, coeffBeta := identityMat 3 } }

/-- The selection `_determine_active_space` computes for `cfgC4` / `mdC4`. -/
def selC4 : ActiveSpaceSelection :=
  { activeIdxs := [0], inactiveIdxs := [], numParticlesAlpha := 1, numParticlesBeta := 1 }

/-- Claim C4 fails on the code: with active orbitals `[0]` on the
`(2, 0, 2)`-occupied system all validations pass, the code computes an
empty inactive set (it only scans indices below `total_electrons // 2 = 2`),
but the claimed set over all orbital indices is `[2]` — the occupied
orbital 2 is silently dropped. -/
theorem C4_counterexample :
    (determineActiveSpace cfgC4 mdC4).map (fun s => s.inactiveIdxs) = .ok []
    ∧ claimInactiveSet mdC4 [0] = [2]
    ∧ ([] : List Int) ≠ [2] := by
  refine ⟨?_, ?_, by decide⟩
  · simp [determineActiveSpace, validateNumElectrons, validateNumOrbitals,
      activeParticles, moOccTotal, pyDiv, pyMod, pyGet, intRange, selectEntries,
      listMaxInt, cfgC4, mdC4, Except.map, List.range_succ,
      (show ((1 : ℚ) + 1 = 2) by norm_num), (show ((0 : ℚ) < 2) by norm_num)]
  · simp [claimInactiveSet, moOccTotal, pyDiv, pyGet, intRange, mdC4,
      List.range_succ, List.filter, (show ((0 : ℚ) < 2) by norm_num)]

/-- C4 (amended): when explicit active-orbital indices are supplied and
`_determine_active_space` succeeds, the computed inactive index set contains
exactly the orbital indices strictly below `total_electrons // 2` that are
not in the active set and have strictly positive total occupation; occupied
orbitals at or above that bound, and zero-occupation orbitals, appear in
neither set. -/
theorem C4_inactive_index_window (cfg : ASTConfig) (md : MoleculeData) (active : List Int)
    (sel : ActiveSpaceSelection) (o : Int)
    (h1 : cfg.activeOrbitals = some active)
    (h2 : determineActiveSpace cfg md = .ok sel) :
    o ∈ sel.inactiveIdxs ↔
      (0 ≤ o
        ∧ o < pyDiv (md.particleNumber.numAlpha + md.particleNumber.numBeta) 2
        ∧ o ∉ active
        ∧ 0 < pyGet (moOccTotal md) o) := by
  simp only [determineActiveSpace] at h2
  split at h2
  · exact Except.noConfusion h2
  · split at h2
    · exact Except.noConfusion h2
    · rw [h1] at h2
      injection h2 with h3
      subst h3
      simp [List.mem_filter, intRange_mem, and_assoc]

/-- Witness for `C4_inactive_index_window` at the concrete C4 input, index 1. -/
theorem C4_inactive_index_window_witness :
    (1 : Int) ∈ selC4.inactiveIdxs ↔
      (0 ≤ (1 : Int)
        ∧ (1 : Int) < pyDiv (mdC4.particleNumber.numAlpha + mdC4.particleNumber.numBeta) 2
        ∧ (1 : Int) ∉ ([0] : List Int)
        ∧ 0 < pyGet (moOccTotal mdC4) 1) :=
  C4_inactive_index_window cfgC4 mdC4 [0] selC4 1 rfl (by
    simp [determineActiveSpace, validateNumElectrons, validateNumOrbitals,
      activeParticles, moOccTotal, pyDiv, pyMod, pyGet, intRange, selectEntries,
      listMaxInt, cfgC4, mdC4, selC4, List.range_succ,
      (show ((1 : ℚ) + 1 = 2) by norm_num), (show ((0 : ℚ) < 2) by norm_num)])

/-- The inactive electron count `total_electrons - active_alpha - active_beta`
that `transform` computes for a configuration and input system. -/
def nelecInactiveOf (cfg : ASTConfig) (md : MoleculeData) : Int :=
  md.particleNumber.numAlpha + md.particleNumber.numBeta
    - (activeParticles cfg.numElectrons).1 - (activeParticles cfg.numElectrons).2

/-- C6: whenever the inactive electron count is negative or odd, `transform`
raises an error (the infeasibility error when the configuration itself is
well-formed, the configuration error otherwise) — it never silently rounds,
so, contrapositively, every successful `transform` runs with an even,
non-negative inactive electron count. -/
theorem C6_infeasible_inactive_count_raises (cfg : ASTConfig) (md : MoleculeData)
    (h : nelecInactiveOf cfg md < 0 ∨ pyMod (nelecInactiveOf cfg md) 2 ≠ 0) :
    ∃ e, transform cfg md = .error e := by
  obtain ⟨e0, he0⟩ :
      ∃ e, validateNumElectrons
        (md.particleNumber.numAlpha + md.particleNumber.numBeta
          - (activeParticles cfg.numElectrons).1
          - (activeParticles cfg.numElectrons).2) = .error e := by
    unfold nelecInactiveOf at h
    unfold validateNumElectrons
    by_cases h0 : md.particleNumber.numAlpha + md.particleNumber.numBeta
        - (activeParticles cfg.numElectrons).1 - (activeParticles cfg.numElectrons).2 < 0
    · exact ⟨_, if_pos h0⟩
    · have h1 : pyMod (md.particleNumber.numAlpha + md.particleNumber.numBeta
          - (activeParticles cfg.numElectrons).1
          - (activeParticles cfg.numElectrons).2) 2 ≠ 0 := by tauto
      exact ⟨_, by rw [if_neg h0, if_pos h1]⟩
  cases hc : checkConfiguration cfg with
  | error e1 =>
    exact ⟨.qiskitWrapped ("Incorrect Active-Space configuration.") e1,
      by simp [transform, transformInternals, hc, Except.map]⟩
  | ok u =>
    exact ⟨e0,
      by simp [transform, transformInternals, hc, determineActiveSpace, he0, Except.map]⟩

/-- Infeasible configuration for the C6 witness: 4 active electrons
requested from a 2-electron system. -/
def cfgC6 : ASTConfig :=
  { numElectrons := .int 4, numMolecularOrbitals := some 1, activeOrbitals := none }

/-- Input system for the C6 witness. -/
def mdC6 : MoleculeData :=
  { particleNumber :=
      { numSpinOrbitals := 4, numAlpha := 1, numBeta := 1,
        occupationAlpha := [1, 0], occupationBeta := [1, 0] }
    reduceOutcomes := []
    basisTransform := { coeffAlpha := identityMat 2, coeffBeta := identityMat 2 } }

/-- Witness for `C6_infeasible_inactive_count_raises`: the inactive count is
`2 - 2 - 2 = -2 < 0` and `transform` errors. -/
theorem C6_infeasible_witness : ∃ e, transform cfgC6 mdC6 = .error e :=
  C6_infeasible_inactive_count_raises cfgC6 mdC6 (Or.inl (by decide))

/-- Decidable equality of `Except` results, used to evaluate the embedded
code at concrete inputs. -/
instance {epsilon alpha : Type} [DecidableEq epsilon] [DecidableEq alpha] :
    DecidableEq (Except epsilon alpha) := fun x y =>
  match x, y with
  | .error a, .error b =>
    if h : a = b then .isTrue (by rw [h])
    else .isFalse (fun hc => h (by injection hc))
  | .error _, .ok _ => .isFalse (fun hc => Except.noConfusion hc)
  | .ok _, .error _ => .isFalse (fun hc => Except.noConfusion hc)
  | .ok a, .ok b =>
    if h : a = b then .isTrue (by rw [h])
    else .isFalse (fun hc => h (by injection hc))

/-- Errors raised by `_validate_num_electrons` carry no wrapping context. -/
theorem validateNumElectrons_not_wrapped (n : Int) (e : PyErr)
    (h : validateNumElectrons n = .error e) : e.isWrapped = false := by
  unfold validateNumElectrons at h
  split_ifs at h
  all_goals
    injection h with h2
    subst h2
    rfl

/-- Errors raised by `_validate_num_orbitals` carry no wrapping context. -/
theorem validateNumOrbitals_not_wrapped (cfg : ASTConfig) (md : MoleculeData)
    (n : Int) (e : PyErr) (h : validateNumOrbitals cfg md n = .error e) :
    e.isWrapped = false := by
  simp only [validateNumOrbitals] at h
  repeat' first
    | (injection h with h2
       subst h2
       rfl)
    | exact Except.noConfusion h
    | split at h

/-- Errors raised by `_determine_active_space` carry no wrapping context. -/
theorem determineActiveSpace_not_wrapped (cfg : ASTConfig) (md : MoleculeData)
    (e : PyErr) (h : determineActiveSpace cfg md = .error e) : e.isWrapped = false := by
  simp only [determineActiveSpace] at h
  split at h
  · rename_i e1 heq
    injection h with h2
    subst h2
    exact validateNumElectrons_not_wrapped _ _ heq
  · rename_i u heq
    split at h
    · rename_i e1 heq2
      injection h with h2
      subst h2
      exact validateNumOrbitals_not_wrapped _ _ _ _ heq2
    · rename_i u2 heq2
      split at h <;> exact Except.noConfusion h

/-- Valid configuration, infeasible against the C7 system: the resulting
infeasibility error propagates out of `transform` unwrapped. -/
def cfgC7 : ASTConfig :=
  { numElectrons := .int 4, numMolecularOrbitals := some 1, activeOrbitals := none }

/-- Input system for the C7 counterexample: only 2 electrons available. -/
def mdC7 : MoleculeData :=
  { particleNumber :=
      { numSpinOrbitals := 4, numAlpha := 1, numBeta := 1,
        occupationAlpha := [1, 0], occupationBeta := [1, 0] }
    reduceOutcomes := []
    basisTransform := { coeffAlpha := identityMat 2, coeffBeta := identityMat 2 } }

/-- Claim C7 fails on the code: the data-dependent infeasibility error
"More electrons requested than available." reaches the caller as-is, without
the "Incorrect Active-Space configuration." wrapping context — only the
pure configuration checks are inside the wrapping `try/except`. -/
theorem C7_counterexample :
    transform cfgC7 mdC7
      = .error (.qiskitError ("More electrons requested than available."))
    ∧ (PyErr.qiskitError ("More electrons requested than available.")).isWrapped
        = false := by
  refine ⟨?_, by decide⟩
  decide

/-- C7 (amended): an error escaping `transform` carries the stable
"Incorrect Active-Space configuration." wrapping context exactly when it is
a configuration error raised by `_check_configuration`; the data-dependent
infeasibility errors of `_determine_active_space` propagate unwrapped. -/
theorem C7_only_config_errors_wrapped (cfg : ASTConfig) (md : MoleculeData) (e : PyErr)
    (h : transform cfg md = .error e) :
    e.isWrapped = true ↔
      ∃ e0, checkConfiguration cfg = .error e0
        ∧ e = .qiskitWrapped ("Incorrect Active-Space configuration.") e0 := by
  have h2 : transformInternals cfg md = .error e := by
    revert h
    unfold transform
    cases transformInternals cfg md <;> simp [Except.map]
  clear h
  unfold transformInternals at h2
  split at h2
  · rename_i e0 heq
    injection h2 with h3
    subst h3
    constructor
    · intro hx
      exact ⟨e0, heq, rfl⟩
    · intro hx
      rfl
  · rename_i u heq
    split at h2
    · rename_i e1 heq2
      injection h2 with h3
      subst h3
      have hw := determineActiveSpace_not_wrapped cfg md e1 heq2
      constructor
      · intro ht
        rw [hw] at ht
        exact absurd ht (by simp)
      · rintro ⟨e0, hc, -⟩
        rw [heq] at hc
        exact Except.noConfusion hc
    · exact Except.noConfusion h2

/-- Malformed configuration for the C7 witness: an odd single electron
count. -/
def cfgC7w : ASTConfig :=
  { numElectrons := .int 3, numMolecularOrbitals := some 1, activeOrbitals := none }

/-- Input system for the C7 witness. -/
def mdC7w : MoleculeData :=
  { particleNumber :=
      { numSpinOrbitals := 4, numAlpha := 1, numBeta := 1,
        occupationAlpha := [1, 0], occupationBeta := [1, 0] }
    reduceOutcomes := []
    basisTransform := { coeffAlpha := identityMat 2, coeffBeta := identityMat 2 } }

/-- The wrapped configuration error `transform` raises on `cfgC7w`. -/
def errC7w : PyErr :=
  .qiskitWrapped ("Incorrect Active-Space configuration.")
    (.qiskitError ("The number of active electrons must be even!"))

/-- Witness for `C7_only_config_errors_wrapped` at the odd-electron-count
configuration. -/
theorem C7_only_config_errors_wrapped_witness :
    errC7w.isWrapped = true ↔
      ∃ e0, checkConfiguration cfgC7w = .error e0
        ∧ errC7w = .qiskitWrapped ("Incorrect Active-Space configuration.") e0 :=
  C7_only_config_errors_wrapped cfgC7w mdC7w errC7w (by decide)

/-- Replacing the value at key `k` in the mapped dict yields `some v` at `k`
exactly when `k` was present. -/
theorem keyGet_map_replace {κ α : Type} [DecidableEq κ] (l : List (κ × α)) (k : κ) (v : α) :
    keyGet (l.map (fun e => if e.1 = k then (k, v) else e)) k
      = if (keyGet l k).isSome then some v else none := by
  induction l with
  | nil => rfl
  | cons e es ih =>
    obtain ⟨k2, v2⟩ := e
    simp only [List.map_cons]
    by_cases hk : k2 = k
    · subst hk
      rw [if_pos rfl]
      simp [keyGet]
    · rw [if_neg hk]
      simp [keyGet, hk, ih]

/-- Appending a fresh binding is only visible at its own key when that key
was absent. -/
theorem keyGet_append_single {κ α : Type} [DecidableEq κ] (l : List (κ × α)) (k : κ) (v : α) :
    keyGet (l ++ [(k, v)]) k = if (keyGet l k).isSome then keyGet l k else some v := by
  induction l with
  | nil => simp [keyGet]
  | cons e es ih =>
    obtain ⟨k2, v2⟩ := e
    by_cases hk : k2 = k <;> simp [keyGet, hk, ih]

/-- Replacing at key `k` leaves every other key unchanged. -/
theorem keyGet_map_replace_ne {κ α : Type} [DecidableEq κ] (l : List (κ × α))
    (k k2 : κ) (v : α) (h : k2 ≠ k) :
    keyGet (l.map (fun e => if e.1 = k then (k, v) else e)) k2 = keyGet l k2 := by
  induction l with
  | nil => rfl
  | cons e es ih =>
    obtain ⟨k3, v3⟩ := e
    simp only [List.map_cons]
    by_cases hk : k3 = k
    · subst hk
      rw [if_pos rfl]
      have hk2 : ¬ (k3 = k2) := fun hc => h hc.symm
      simp [keyGet, hk2, ih]
    · rw [if_neg hk]
      simp [keyGet, ih]

/-- Appending a binding for key `k` leaves every other key unchanged. -/
theorem keyGet_append_single_ne {κ α : Type} [DecidableEq κ] (l : List (κ × α))
    (k k2 : κ) (v : α) (h : k2 ≠ k) :
    keyGet (l ++ [(k, v)]) k2 = keyGet l k2 := by
  induction l with
  | nil => simp [keyGet, show ¬ (k = k2) from fun hc => h hc.symm]
  | cons e es ih =>
    obtain ⟨k3, v3⟩ := e
    by_cases hk3 : k3 = k2 <;> simp [keyGet, hk3, ih]

/-- A dict insert-or-replace stores the value under the given key. -/
theorem keyGet_keySet_self {κ α : Type} [DecidableEq κ] (l : List (κ × α)) (k : κ) (v : α) :
    keyGet (keySet l k v) k = some v := by
  unfold keySet
  by_cases hs : (keyGet l k).isSome
  · rw [if_pos hs, keyGet_map_replace, if_pos hs]
  · rw [if_neg hs, keyGet_append_single, if_neg hs]

/-- A dict insert-or-replace leaves every other key unchanged. -/
theorem keyGet_keySet_ne {κ α : Type} [DecidableEq κ] (l : List (κ × α))
    (k k2 : κ) (v : α) (h : k2 ≠ k) :
    keyGet (keySet l k v) k2 = keyGet l k2 := by
  unfold keySet
  by_cases hs : (keyGet l k).isSome
  · rw [if_pos hs, keyGet_map_replace_ne _ _ _ _ h]
  · rw [if_neg hs, keyGet_append_single_ne _ _ _ _ h]

/-- Properties of the C8 composite. -/
def propA : PropertyData := { name := ("A"), tag := 0 }

/-- Second property of the C8 composite. -/
def propB : PropertyData := { name := ("B"), tag := 1 }

/-- The replacement sent back while `propA` is being yielded: it carries the
name of the other element. -/
def propB2 : PropertyData := { name := ("B"), tag := 2 }

/-- The C8 composite holding two properties. -/
def compC8 : CompositeDict := [(("A"), propA), (("B"), propB)]

/-- Claim C8 fails on the code: sending back the replacement `propB2`
(named "B") while the element stored under "A" is being yielded does not
write it under "A" — `add_property` keys the write-back by the
replacement's own name, so "A" still holds the original property and "B"
was overwritten instead. -/
theorem C8_counterexample :
    generatorRun compC8 0 [some propB2, none]
      = .ok [(("A"), propA), (("B"), propB2)]
    ∧ keyGet [(("A"), propA), (("B"), propB2)] ("A") = some propA
    ∧ propB2.name = ("B")
    ∧ propA ≠ propB2
    ∧ ([(("A"), propA), (("B"), propB2)] : CompositeDict)
        ≠ [(("A"), propB2), (("B"), propB)] := by
  decide

/-- C8 (amended): when the caller supplies a replacement for the currently
yielded element, the replacement is written back through `add_property` —
i.e. stored under the replacement's own name (which coincides with the
replaced element's name exactly when the replacement keeps that name),
leaving all other keys unchanged — before the next element is produced;
when no replacement is supplied the composite is unchanged for that
element. -/
theorem C8_replacement_under_own_name (c : CompositeDict) (i : Nat) (np : PropertyData)
    (rest : List (Option PropertyData)) (k : String)
    (h : i < c.length) (hlen : (addProperty c np).length = c.length) (hk : k ≠ np.name) :
    generatorRun c i (some np :: rest) = generatorRun (addProperty c np) (i + 1) rest
    ∧ keyGet (addProperty c np) np.name = some np
    ∧ keyGet (addProperty c np) k = keyGet c k
    ∧ generatorRun c i (none :: rest) = generatorRun c (i + 1) rest := by
  refine ⟨?_, keyGet_keySet_self _ _ _, keyGet_keySet_ne _ _ _ _ hk, ?_⟩
  · simp [generatorRun, h, hlen]
  · simp [generatorRun, h]

/-- The single-property composite used by the C8 witness. -/
def compC8w : CompositeDict := [(("A"), propA)]

/-- Witness for `C8_replacement_under_own_name`: a same-named replacement on
a one-element composite, checked against the unrelated key "Z". -/
theorem C8_replacement_under_own_name_witness :
    generatorRun compC8w 0 [some propA] = generatorRun (addProperty compC8w propA) 1 []
    ∧ keyGet (addProperty compC8w propA) propA.name = some propA
    ∧ keyGet (addProperty compC8w propA) ("Z") = keyGet compC8w ("Z")
    ∧ generatorRun compC8w 0 [none] = generatorRun compC8w 1 [] :=
  C8_replacement_under_own_name compC8w 0 propA [] ("Z") (by decide) (by decide) (by decide)

/-- C9: `IntegralProperty.second_q_ops` consumes the spin-orbital integrals
whenever they are present (even when molecular-orbital integrals coexist),
falls back to the molecular-orbital ones otherwise, and returns the reduced
sum of the per-body-order operator contributions as a one-element list. -/
theorem C9_basis_selection (p : IntegralPropertyData) (l : List ElectronicIntegralsData)
    (h : keyGet p.electronicIntegrals ElectronicBasis.SO = some l
       ∨ (keyGet p.electronicIntegrals ElectronicBasis.SO = none
          ∧ keyGet p.electronicIntegrals ElectronicBasis.MO = some l)) :
    integralPropertySecondQOps p = .ok [reduceOp (sumOps (l.map toSecondQOp))] := by
  rcases h with h | ⟨h1, h2⟩
  · simp [integralPropertySecondQOps, h]
  · simp [integralPropertySecondQOps, h1, h2]

/-- Molecular-orbital integrals of the C9 witness property. -/
def intsMO : ElectronicIntegralsData := { op := [(("+_0 -_0"), (1 : ℚ))] }

/-- Spin-orbital integrals of the C9 witness property. -/
def intsSO : ElectronicIntegralsData := { op := [(("+_0 -_0"), (2 : ℚ))] }

/-- The C9 witness property, holding both bases. -/
def ipC9 : IntegralPropertyData :=
  { name := ("ElectronicEnergy")
    electronicIntegrals := [(ElectronicBasis.MO, [intsMO]), (ElectronicBasis.SO, [intsSO])]
    shift := [] }

/-- Witness for `C9_basis_selection`: with both bases stored, the
spin-orbital integrals are the ones consumed. -/
theorem C9_basis_selection_witness :
    integralPropertySecondQOps ipC9 = .ok [reduceOp (sumOps ([intsSO].map toSecondQOp))] :=
  C9_basis_selection ipC9 [intsSO] (Or.inl rfl)

/-- Every state reachable through the `ElectronicDriverResult` API keeps the
attribute set assigned by `__init__`. -/
theorem edr_assigned_invariant (s : EDRState) (h : EDRReachable s) :
    s.assignedAttrs = edrInitAttrs := by
  induction h with
  | init => rfl
  | addProp s p h ih => simpa using ih
  | setBasisTransform s t h ih => simpa using ih

/-- C10: `ElectronicDriverResult.second_q_ops` raises `AttributeError` on
every instance constructible through the class API — its first read,
`electronic_energy_mo`, names an attribute no constructor or method ever
assigns (stored properties live only in the `properties` dict). -/
theorem C10_second_q_ops_always_raises (s : EDRState) (h : EDRReachable s) :
    edrSecondQOps s = .error (.attributeError ("electronic_energy_mo")) := by
  have hA := edr_assigned_invariant s h
  unfold edrSecondQOps
  rw [hA]
  decide

/-- Witness for `C10_second_q_ops_always_raises` at the freshly constructed
instance. -/
theorem C10_second_q_ops_always_raises_witness :
    edrSecondQOps edrInit = .error (.attributeError ("electronic_energy_mo")) :=
  C10_second_q_ops_always_raises edrInit EDRReachable.init
